import Mathlib

/-!
Verification development for the withdrawal-record scoring repository.

The Python source is embedded shallowly:
* scalar cells become the `PyVal` sum type (missing value, number, string);
* numeric values are modelled as rationals (all weights and thresholds of the
  program are exact decimal constants, so rational arithmetic reproduces the
  comparisons the program performs);
* timestamps are modelled as rational numbers of seconds, so that the
  difference `(target_time - person_time).total_seconds()` is plain
  subtraction;
* tables read by the warning-merge step become `DFrame`: a list of column
  headers plus rows of cells, where each cell is either missing (NaN) or the
  string rendering the code obtains via `str`/`astype(str)`.

Definitions keep the snake_case names of the source functions they embed.
-/

/-- Scalar cell value as the Python code sees it: a missing value (None/NaN),
a number (int or float), or a string. -/
inductive PyVal where
  | vNA : PyVal
  | vNum : ℚ → PyVal
  | vStr : String → PyVal
deriving DecidableEq

/-- Embeds `pd.isna` on scalar cells. -/
def pdIsna : PyVal → Bool
  | .vNA => true
  | _ => false

/-- Embeds Python `str.strip()`: drop leading and trailing whitespace. -/
def pyStrip (s : String) : String :=
  ⟨((s.data.dropWhile Char.isWhitespace).reverse.dropWhile
      Char.isWhitespace).reverse⟩

/-- Embeds Python `str.lower()` on the ASCII letters the program compares. -/
def pyLower (s : String) : String :=
  ⟨s.data.map Char.toLower⟩

/-- Embeds `data_process.py` lines 97-108, `DataProcessor.convert_boolean_field`:
missing values are false, numbers are truthy iff non-zero, strings are stripped,
lower-cased and compared against the affirmative token list of the source. -/
def convert_boolean_field (value : PyVal) : Bool :=
  if pdIsna value then false
  else
    match value with
    | .vNA => false
    | .vNum q => q != 0
    | .vStr s =>
      let value_str := pyLower (pyStrip s)
      value_str == "1" || value_str == "是" || value_str == "true" ||
        value_str == "yes" || value_str == "y" || value_str == "有"

/-- Numeric value of a decimal digit character. -/
def digitNat (c : Char) : Nat := c.toNat - 48

/-- Value of a list of decimal digit characters. -/
def natOfDigits (l : List Char) : Nat :=
  l.foldl (fun a c => a * 10 + digitNat c) 0

/-- Embeds Python `float(s)` on finite decimal literals: optional sign,
digits, optional fractional part, at least one digit; anything else fails
(raises `ValueError` in the source).  Exotic literals accepted by Python
(`inf`, `nan`, exponents) are outside the model. -/
def pyFloatOfString (s : String) : Option ℚ :=
  let t := pyStrip s
  let signAndBody : ℚ × List Char :=
    match t.data with
    | '-' :: r => (-1, r)
    | '+' :: r => (1, r)
    | r => (1, r)
  let sign := signAndBody.1
  let body := signAndBody.2
  let intPart := body.takeWhile Char.isDigit
  let rest := body.dropWhile Char.isDigit
  match rest with
  | [] =>
    if intPart.isEmpty then none
    else some (sign * (natOfDigits intPart : ℚ))
  | '.' :: frac =>
    if frac.all Char.isDigit && !(intPart.isEmpty && frac.isEmpty) then
      some (sign * ((natOfDigits intPart : ℚ) +
        (natOfDigits frac : ℚ) / ((10 : ℚ) ^ frac.length)))
    else none
  | _ => none

/-- Embeds Python `float(x)` on a cell value. -/
def pyFloatVal : PyVal → Option ℚ
  | .vNA => none
  | .vNum q => some q
  | .vStr s => pyFloatOfString s

/-- Embeds Python `int(q)` on a float: truncation toward zero. -/
def pyInt (q : ℚ) : Int :=
  if q < 0 then ⌈q⌉ else ⌊q⌋

/-- The test `not pd.isna(v) and str(v).strip() != ''` that guards every field
parse in `process_uploaded_data`: a missing value or a blank string fails it;
the `str` rendering of a number is never blank. -/
def cellFilled : PyVal → Bool
  | .vNA => false
  | .vNum _ => true
  | .vStr s => pyStrip s != ""

/-- One raw input row restricted to the columns the normalizer claims concern.
`none` means the column was not resolved for the table (absent from the
column map); `some v` is the cell value in the resolved column. -/
structure RawRow where
  id_number : Option PyVal
  amount : Option PyVal
  transaction_count : Option PyVal

/-- The normalized record fields the claims concern. -/
structure PersonRec where
  amount : ℚ
  transaction_count : Int
deriving DecidableEq

/-- Embeds `data_process.py` lines 326-346: amount defaults to `0.0` when the
column is absent, the cell is null/blank, or `float` fails; otherwise the
parsed value is passed through uncorrected (negative values included). -/
def amountField (c : Option PyVal) : ℚ :=
  match c with
  | none => 0
  | some v =>
    if cellFilled v then
      match pyFloatVal v with
      | some q => q
      | none => 0
    else 0

/-- Embeds `data_process.py` lines 419-439: transaction count defaults to `1`
when the column is absent, the cell is null/blank, or `int(float(...))` fails;
otherwise the parsed value is truncated to an integer and used unchanged. -/
def transactionCountField (c : Option PyVal) : Int :=
  match c with
  | none => 1
  | some v =>
    if cellFilled v then
      match pyFloatVal v with
      | some q => pyInt q
      | none => 1
    else 1

/-- Embeds the per-row acceptance and field assembly of
`process_uploaded_data` (lines 262-287 for the identity gate, then the field
normalizers): a row with an absent identity column or a null/blank identity
cell is skipped (`none`); an accepted row yields the normalized record. -/
def normalizeRow (row : RawRow) : Option PersonRec :=
  match row.id_number with
  | none => none
  | some idv =>
    if cellFilled idv then
      some { amount := amountField row.amount,
             transaction_count := transactionCountField row.transaction_count }
    else none

/-- Person data as consumed by the scoring engine (`person_data.get` defaults
of `scoring_system.py` become the structure defaults). `withdraw_time` is a
timestamp in seconds; `none` embeds an absent or non-datetime value. -/
structure Person where
  name : String := "未知"
  withdraw_time : Option ℚ := none
  amount : ℚ := 0
  location : String := ""
  gender : String := "unknown"
  has_adult_app : Bool := false
  has_special_comm : Bool := false
  has_history_warning : Bool := false
  has_investment_app : Bool := false
  transaction_count : Int := 1

/-- Embeds `scoring_system.py` lines 67-82, `get_amount_category`, with the
thresholds `amount_thresholds = 30000 / 100000`. -/
def get_amount_category (amount : ℚ) : String :=
  if amount < 30000 then "low"
  else if amount < 100000 then "medium"
  else "high"

/-- Base-score breakdown returned by `calculate_base_score`. -/
structure BaseScores where
  time_score : ℚ
  amount_score : ℚ
  location_score : ℚ
  total_base_score : ℚ

/-- Substring test on character lists: does the pattern occur at the head? -/
def listStarts : List Char → List Char → Bool
  | [], _ => true
  | _ :: _, [] => false
  | a :: as, b :: bs => a == b && listStarts as bs

/-- Substring test on character lists: does the pattern occur anywhere? -/
def listHasSub (pat : List Char) : List Char → Bool
  | [] => pat.isEmpty
  | c :: rest => listStarts pat (c :: rest) || listHasSub pat rest

/-- Embeds the Python substring test `pat in s`. -/
def strContains (s pat : String) : Bool :=
  listHasSub pat.data s.data

/-- Embeds `scoring_system.py` lines 148-158: split the clue location on the
`、` delimiter and test whether any stripped non-empty keyword occurs in the
record location. -/
def location_matched (target_location person_location : String) : Bool :=
  ((pyStrip target_location).splitOn "、").any fun keyword =>
    pyStrip keyword != "" && strContains person_location (pyStrip keyword)

/-- Embeds `scoring_system.py` lines 84-174, `calculate_base_score`. -/
def calculate_base_score (p : Person) (target_time : ℚ) (target_amount : ℚ)
    (target_location : String) : BaseScores :=
  let time_score : ℚ :=
    match p.withdraw_time with
    | none => 0
    | some person_time =>
      let d := |target_time - person_time| / 3600
      if d ≤ 1 then 40
      else if d ≤ 3 then 35
      else if d ≤ 6 then 30
      else if d ≤ 12 then 25
      else if d ≤ 24 then 20
      else if d ≤ 48 then 15
      else if d ≤ 72 then 10
      else 5
  let amount_score : ℚ :=
    if p.amount > 0 then
      let r := |target_amount - p.amount| / max target_amount p.amount
      if r ≤ 5 / 100 then 40
      else if r ≤ 1 / 10 then 35
      else if r ≤ 2 / 10 then 30
      else if r ≤ 3 / 10 then 25
      else if r ≤ 5 / 10 then 20
      else if r ≤ 7 / 10 then 15
      else if r ≤ 1 then 10
      else 5
    else 0
  let location_score : ℚ :=
    if pyStrip target_location != "" then
      if location_matched target_location p.location then 40 else 0
    else 40
  { time_score := time_score,
    amount_score := amount_score,
    location_score := location_score,
    total_base_score := time_score + amount_score + location_score }

/-- Additional-score breakdown returned by `calculate_additional_score`. -/
structure AdditionalScores where
  gender_score : ℚ
  app_score : ℚ
  history_warning_score : ℚ
  frequency_score : ℚ
  total_additional_score : ℚ

/-- Embeds `scoring_system.py` lines 176-260, `calculate_additional_score`;
the literal constants are the entries of `additional_score_config` (the
medium-bucket special-comm branch reads the `special_app` entry, value 10). -/
def calculate_additional_score (p : Person) (target_amount : ℚ) :
    AdditionalScores :=
  let amount_category := get_amount_category target_amount
  let gender_score : ℚ :=
    if amount_category = "low" then
      if p.gender = "male" then 15 else 0
    else if amount_category = "medium" then
      if p.gender = "male" then 5
      else if p.gender = "female" then 5
      else 0
    else
      if p.gender = "female" then 15 else 0
  let app_score : ℚ :=
    if amount_category = "low" then
      if p.has_adult_app then 20 else 0
    else if amount_category = "medium" then
      (if p.has_adult_app then 10 else 0) + (if p.has_special_comm then 10 else 0)
    else
      (if p.has_special_comm then 20 else 0) +
        (if p.has_investment_app then 15 else 0)
  let history_warning_score : ℚ :=
    if p.has_history_warning then
      if amount_category = "low" then 10
      else if amount_category = "medium" then 15
      else 10
    else 0
  let frequency_score : ℚ :=
    if p.transaction_count ≥ 2 then ((p.transaction_count - 1 : Int) : ℚ) * 5
    else 0
  { gender_score := gender_score,
    app_score := app_score,
    history_warning_score := history_warning_score,
    frequency_score := frequency_score,
    total_additional_score :=
      gender_score + app_score + history_warning_score + frequency_score }

/-- Scored-person fields the claims concern, as assembled by
`score_person_new`. -/
structure ScoredPerson where
  name : String
  score : ℚ
  match_level : String
  amount_category : String
deriving DecidableEq

/-- Embeds `scoring_system.py` lines 262-322, `score_person_new`.  The source
rounds the total to one decimal; every weight is an integer, so the rounding
is the identity and the total is kept exactly. -/
def score_person_new (p : Person) (target_time target_amount : ℚ)
    (target_location : String) : ScoredPerson :=
  let base := calculate_base_score p target_time target_amount target_location
  let add := calculate_additional_score p target_amount
  let total_score := base.total_base_score + add.total_additional_score
  let match_level :=
    if total_score ≥ 100 then "非常高"
    else if total_score ≥ 80 then "高"
    else if total_score ≥ 60 then "中"
    else if total_score ≥ 40 then "低"
    else "很低"
  { name := p.name,
    score := total_score,
    match_level := match_level,
    amount_category := get_amount_category target_amount }

/-- Stable descending insertion: an element is placed before the first later
element of strictly smaller or equal score only when its own score is at least
as large, so equal scores keep the earlier element first. -/
def insertByScoreDesc (x : ScoredPerson) : List ScoredPerson → List ScoredPerson
  | [] => [x]
  | y :: ys =>
    if x.score ≥ y.score then x :: y :: ys
    else y :: insertByScoreDesc x ys

/-- Embeds `scored_persons.sort(key=lambda x: x["score"], reverse=True)` of
`scoring_system.py` line 376: Python guarantees `list.sort` is stable, and a
stable descending sort is exactly stable insertion sort. -/
def sortByScoreDesc : List ScoredPerson → List ScoredPerson
  | [] => []
  | x :: xs => insertByScoreDesc x (sortByScoreDesc xs)

/-- The `target_info` mapping of the result; the empty-input branch of the
source builds it without the `location` key, embedded here as `none`. -/
structure TargetInfo where
  time : ℚ
  amount : ℚ
  location : Option String
deriving DecidableEq

/-- Result of `score_persons` restricted to the fields the claims concern.
`target_info.time` carries the clue time the source formats with `strftime`. -/
structure ScoreResult where
  total_persons : Nat
  target_info : TargetInfo
  scored_persons : List ScoredPerson
  top_match : Option ScoredPerson
  amount_category : String

/-- Embeds `scoring_system.py` lines 339-389, `score_persons`. -/
def score_persons (persons : List Person) (target_time target_amount : ℚ)
    (target_location : String) : ScoreResult :=
  if persons.isEmpty then
    { total_persons := 0,
      target_info := { time := target_time, amount := target_amount,
                       location := none },
      scored_persons := [],
      top_match := none,
      amount_category := get_amount_category target_amount }
  else
    let scored := persons.map
      (fun p => score_person_new p target_time target_amount target_location)
    let sorted := sortByScoreDesc scored
    { total_persons := sorted.length,
      target_info := { time := target_time, amount := target_amount,
                       location := some target_location },
      scored_persons := sorted,
      top_match := sorted.head?,
      amount_category := get_amount_category target_amount }

/-- A table as read by `merge_warning_count_to_withdraw_records`: column
headers plus rows of cells.  A cell is `none` for a missing value (NaN) and
`some s` for the string rendering the code obtains via `str`/`astype(str)`. -/
structure DFrame where
  cols : List String
  rows : List (List (Option String))
deriving DecidableEq

/-- Embeds `data_process.py` lines 56-62, `find_column_by_keywords`: for each
keyword in declared order, return the first column whose header contains it. -/
def find_column_by_keywords (cols : List String) (keywords : List String) :
    Option String :=
  keywords.findSome? fun keyword => cols.find? fun col => strContains col keyword

/-- Column resolution of line 613: victim identity column of the warning table. -/
def victim_id_col (warning : DFrame) : Option String :=
  find_column_by_keywords warning.cols ["受害人身份证号", "身份证号"]

/-- Column resolution of line 614: victim phone column of the warning table. -/
def victim_phone_col (warning : DFrame) : Option String :=
  find_column_by_keywords warning.cols ["受害人号码", "号码"]

/-- Column resolution of line 621: identity column of the withdrawal table. -/
def withdraw_id_col (withdraw : DFrame) : Option String :=
  find_column_by_keywords withdraw.cols ["身份证号"]

/-- Column resolution of line 622: phone column of the withdrawal table. -/
def withdraw_phone_col (withdraw : DFrame) : Option String :=
  find_column_by_keywords withdraw.cols ["电话号码", "手机号", "电话", "联系方式"]

/-- Column resolution of line 636: fraud-type column of the warning table. -/
def fraud_type_col (warning : DFrame) : Option String :=
  find_column_by_keywords warning.cols ["疑似诈骗类型", "诈骗类型", "类型"]

/-- Cell of a row in a named column of the table. -/
def cellAt (df : DFrame) (col : String) (row : List (Option String)) :
    Option String :=
  match df.cols.findIdx? (· == col) with
  | some i => row.getD i none
  | none => none

/-- Key used when scanning warning rows:
`str(row[col]).strip() if pd.notna(row[col]) else ''`. -/
def warnKey (c : Option String) : String :=
  match c with
  | none => ""
  | some s => pyStrip s

/-- Key used for withdrawal rows: `astype(str).str.strip()` (stage 1) and
`str(...).strip()` (stage 2) both render a missing value as the string nan. -/
def matchKey (c : Option String) : String :=
  match c with
  | none => "nan"
  | some s => pyStrip s

/-- Fraud-type label contributed by one warning row (lines 666-669, 730-733):
present only when the fraud-type column resolved, the cell is non-null, and
its stripped text is neither empty nor the literal nan. -/
def fraudTypeOf (warning : DFrame) (ftcol : Option String)
    (row : List (Option String)) : Option String :=
  match ftcol with
  | none => none
  | some fc =>
    match cellAt warning fc row with
    | none => none
    | some s =>
      let fraud_type := pyStrip s
      if fraud_type != "" && fraud_type != "nan" then some fraud_type else none

/-- Increment the bucket of a key in an insertion-ordered aggregation map,
appending the optional fraud-type label without deduplication. -/
def bumpInfo (l : List (String × Nat × List String)) (key : String)
    (ft : Option String) : List (String × Nat × List String) :=
  match l with
  | [] => [(key, 1, ft.toList)]
  | (k, n, ts) :: rest =>
    if k == key then (k, n + 1, ts ++ ft.toList) :: rest
    else (k, n, ts) :: bumpInfo rest key ft

/-- Embeds lines 652-669: scan every warning row and aggregate count and
fraud-type labels per trimmed victim identity, ignoring blank/nan cells. -/
def buildIdInfo (warning : DFrame) (vcol : String) :
    List (String × Nat × List String) :=
  warning.rows.foldl
    (fun acc row =>
      let victim_id := warnKey (cellAt warning vcol row)
      if victim_id != "" && victim_id != "nan" then
        bumpInfo acc victim_id (fraudTypeOf warning (fraud_type_col warning) row)
      else acc)
    []

/-- First character of a string is a decimal digit (`s[0].isdigit()`). -/
def firstIsDigit (s : String) : Bool :=
  match s.data with
  | [] => false
  | c :: _ => c.isDigit

/-- Embeds lines 714-733: the phone-keyed aggregation map, accepting only
non-blank, non-nan phone values whose first character is a digit. -/
def buildPhoneInfo (warning : DFrame) (vpcol : String) :
    List (String × Nat × List String) :=
  warning.rows.foldl
    (fun acc row =>
      let victim_phone := warnKey (cellAt warning vpcol row)
      if victim_phone != "" && victim_phone != "nan" &&
          firstIsDigit victim_phone then
        bumpInfo acc victim_phone
          (fraudTypeOf warning (fraud_type_col warning) row)
      else acc)
    []

/-- Embeds the identity stage, lines 646-703.  When both identity columns
resolved, the aggregation map is joined onto every withdrawal row.  Two
situations make the pandas code raise inside this stage: an empty aggregation
map gives `pd.DataFrame([])` no columns at all, so the merge on 身份证号
raises `KeyError`; and a withdrawal table that already carries a 预警次数
column collides with the right-hand 预警次数, the merge suffixes both, and
`id_matched[预警次数]` raises `KeyError`.  A colliding 疑似诈骗类型 column is
read with `.get`, which silently falls back to the all-empty default. -/
def idStage (warning withdraw : DFrame) :
    Except String (List Nat × List String) :=
  match victim_id_col warning, withdraw_id_col withdraw with
  | some vcol, some wcol =>
    let info := buildIdInfo warning vcol
    if info.isEmpty then
      .error "KeyError: 身份证号"
    else if withdraw.cols.contains "预警次数" then
      .error "KeyError: 预警次数"
    else
      let counts := withdraw.rows.map fun row =>
        match List.lookup (matchKey (cellAt withdraw wcol row)) info with
        | some p => p.1
        | none => 0
      let types := withdraw.rows.map fun row =>
        if withdraw.cols.contains "疑似诈骗类型" then ""
        else
          match List.lookup (matchKey (cellAt withdraw wcol row)) info with
          | some p => String.intercalate ", " p.2
          | none => ""
      .ok (counts, types)
  | _, _ =>
    .ok (withdraw.rows.map fun _ => 0, withdraw.rows.map fun _ => "")

/-- Embeds the phone stage, lines 705-751: when both phone columns resolved,
every record still at count 0 after the identity stage is looked up in the
phone-keyed map; matched records receive the map count, and the fraud-type
text is overwritten only when the fraud-type column resolved. -/
def phoneStage (warning withdraw : DFrame) (s1 : List Nat × List String) :
    List Nat × List String :=
  match victim_phone_col warning, withdraw_phone_col withdraw with
  | some vpcol, some wpcol =>
    let info := buildPhoneInfo warning vpcol
    let ftResolved := (fraud_type_col warning).isSome
    let counts := (withdraw.rows.zip s1.1).map fun rc =>
      if rc.2 = 0 then
        match List.lookup (matchKey (cellAt withdraw wpcol rc.1)) info with
        | some p => p.1
        | none => 0
      else rc.2
    let types := (withdraw.rows.zip (s1.1.zip s1.2)).map fun rct =>
      if rct.2.1 = 0 then
        match List.lookup (matchKey (cellAt withdraw wpcol rct.1)) info with
        | some p =>
          if ftResolved then String.intercalate ", " p.2 else rct.2.2
        | none => rct.2.2
      else rct.2.2
    (counts, types)
  | _, _ => s1

/-- Embeds `data_process.py` lines 586-793,
`merge_warning_count_to_withdraw_records`, producing the per-row 预警次数 and
疑似诈骗类型 values: fatal when the warning table resolves neither victim
column (line 618) or the withdrawal table resolves neither key column
(line 626); otherwise the identity stage then the phone stage run, each
skipped when its columns are missing. -/
def merge_warning_count_to_withdraw_records (warning withdraw : DFrame) :
    Except String (List Nat × List String) :=
  if (victim_id_col warning).isNone && (victim_phone_col warning).isNone then
    .error "无法找到预警文件中的受害人身份证号或受害人号码列"
  else if (withdraw_id_col withdraw).isNone &&
      (withdraw_phone_col withdraw).isNone then
    .error "无法找到取现记录文件中的身份证号或电话号码列"
  else
    match idStage warning withdraw with
    | .error e => .error e
    | .ok s1 => .ok (phoneStage warning withdraw s1)

/-- The merged output table: the source assigns `merged_df[预警次数]` and
`merged_df[疑似诈骗类型]`, which appends the two columns when the withdrawal
table does not already carry them (when it does carry 预警次数 and the
identity stage runs, the computation errors before producing a frame). -/
def merge_warning_frame (warning withdraw : DFrame) : Except String DFrame :=
  match merge_warning_count_to_withdraw_records warning withdraw with
  | .error e => .error e
  | .ok s =>
    .ok { cols := withdraw.cols ++ ["预警次数", "疑似诈骗类型"],
          rows := (withdraw.rows.zip (s.1.zip s.2)).map fun rct =>
            rct.1 ++ [some (toString rct.2.1), some rct.2.2] }

theorem mem_insertByScoreDesc {z x : ScoredPerson} {l : List ScoredPerson}
    (h : z ∈ insertByScoreDesc x l) : z = x ∨ z ∈ l := by
  induction l with
  | nil =>
    simp only [insertByScoreDesc, List.mem_singleton] at h
    exact Or.inl h
  | cons y ys ih =>
    simp only [insertByScoreDesc] at h
    by_cases hc : x.score ≥ y.score
    · rw [if_pos hc] at h
      rcases List.mem_cons.mp h with h1 | h2
      · exact Or.inl h1
      · exact Or.inr h2
    · rw [if_neg hc] at h
      rcases List.mem_cons.mp h with h1 | h2
      · exact Or.inr (h1 ▸ List.mem_cons_self _ _)
      · rcases ih h2 with h3 | h4
        · exact Or.inl h3
        · exact Or.inr (List.mem_cons_of_mem _ h4)

theorem pairwise_insertByScoreDesc (x : ScoredPerson) {l : List ScoredPerson}
    (h : l.Pairwise fun u v => v.score ≤ u.score) :
    (insertByScoreDesc x l).Pairwise fun u v => v.score ≤ u.score := by
  induction l with
  | nil => simp [insertByScoreDesc]
  | cons y ys ih =>
    rcases List.pairwise_cons.mp h with ⟨hy, hys⟩
    simp only [insertByScoreDesc]
    by_cases hc : x.score ≥ y.score
    · rw [if_pos hc]
      refine List.pairwise_cons.mpr ⟨?_, List.pairwise_cons.mpr ⟨hy, hys⟩⟩
      intro z hz
      rcases List.mem_cons.mp hz with h1 | h2
      · exact h1 ▸ hc
      · exact le_trans (hy z h2) hc
    · rw [if_neg hc]
      refine List.pairwise_cons.mpr ⟨?_, ih hys⟩
      intro z hz
      rcases mem_insertByScoreDesc hz with h1 | h2
      · exact h1 ▸ le_of_lt (lt_of_not_ge hc)
      · exact hy z h2

theorem filter_insertByScoreDesc (x : ScoredPerson) (l : List ScoredPerson)
    (s : ℚ) :
    (insertByScoreDesc x l).filter (fun y => decide (y.score = s)) =
      if x.score = s then
        x :: l.filter (fun y => decide (y.score = s))
      else l.filter (fun y => decide (y.score = s)) := by
  induction l with
  | nil =>
    simp only [insertByScoreDesc, List.filter]
    split_ifs with h1 <;> simp [h1]
  | cons y ys ih =>
    simp only [insertByScoreDesc]
    by_cases hc : x.score ≥ y.score
    · rw [if_pos hc]
      by_cases hx : x.score = s
      · simp [List.filter, hx]
      · simp [List.filter, hx]
    · rw [if_neg hc]
      by_cases hx : x.score = s
      · have hy : ¬ y.score = s := by
          intro hys
          exact hc (le_of_eq (hx ▸ hys))
        simp [List.filter, hx, hy, ih]
      · by_cases hy : y.score = s
        · simp [List.filter, hx, hy, ih]
        · simp [List.filter, hx, hy, ih]

theorem pairwise_sortByScoreDesc (l : List ScoredPerson) :
    (sortByScoreDesc l).Pairwise fun u v => v.score ≤ u.score := by
  induction l with
  | nil => simp [sortByScoreDesc]
  | cons x xs ih => exact pairwise_insertByScoreDesc x ih

theorem filter_sortByScoreDesc (l : List ScoredPerson) (s : ℚ) :
    (sortByScoreDesc l).filter (fun y => decide (y.score = s)) =
      l.filter (fun y => decide (y.score = s)) := by
  induction l with
  | nil => rfl
  | cons x xs ih =>
    simp only [sortByScoreDesc, filter_insertByScoreDesc, List.filter, ih]
    by_cases hx : x.score = s
    · simp [hx]
    · simp [hx]

/-- C8: for every input list of records and every clue, the ranked output of
`score_persons` is sorted by total score in descending order, and the records
carrying any given total score appear in the same relative order as in the
(scored image of the) input, i.e. the sort is stable. -/
theorem score_persons_ranked_sorted_stable (persons : List Person)
    (target_time target_amount : ℚ) (target_location : String) :
    ((score_persons persons target_time target_amount
        target_location).scored_persons.Pairwise fun u v => v.score ≤ u.score) ∧
    ∀ s : ℚ,
      ((score_persons persons target_time target_amount
          target_location).scored_persons.filter fun y => decide (y.score = s)) =
        ((persons.map fun p =>
            score_person_new p target_time target_amount target_location).filter
          fun y => decide (y.score = s)) := by
  cases persons with
  | nil => simp [score_persons]
  | cons p ps =>
    constructor
    · simpa [score_persons] using
        pairwise_sortByScoreDesc ((p :: ps).map fun q =>
          score_person_new q target_time target_amount target_location)
    · intro s
      simpa [score_persons] using
        filter_sortByScoreDesc ((p :: ps).map fun q =>
          score_person_new q target_time target_amount target_location) s

/-- C9 counterexample: on empty input the result echoes the clue time and
amount but omits the location key entirely, so the clue location 定海 supplied
here is not echoed back. -/
theorem score_persons_empty_location_cex :
    (score_persons [] 0 50000 "定海").target_info.location = none ∧
      (score_persons [] 0 50000 "定海").target_info.location ≠ some "定海" := by
  constructor
  · rfl
  · intro h
    exact Option.noConfusion ((rfl : (score_persons [] 0 50000
      "定海").target_info.location = none) ▸ h)

/-- C9 amended: calling `score_persons` with an empty record list raises no
error and returns the well-formed empty result: total count 0, no top match,
empty ranked list, the clue time and amount echoed back, and no location key
in the echoed clue info. -/
theorem score_persons_empty_result (target_time target_amount : ℚ)
    (target_location : String) :
    score_persons [] target_time target_amount target_location =
      { total_persons := 0,
        target_info := { time := target_time, amount := target_amount,
                         location := none },
        scored_persons := [],
        top_match := none,
        amount_category := get_amount_category target_amount } := rfl

/-- The boolean-field conversion exactly as the claim words it: true for a
non-zero number or for one of the textual tokens 1, yes, true, 有, 是
(case-insensitively, after trimming); false otherwise. -/
def boolSpecClaimed (value : PyVal) : Bool :=
  match value with
  | .vNA => false
  | .vNum q => q != 0
  | .vStr s =>
    let t := pyLower (pyStrip s)
    t == "1" || t == "yes" || t == "true" || t == "有" || t == "是"

/-- The boolean-field conversion with the claim token list amended by the
extra token y that the source also accepts. -/
def boolSpecAmended (value : PyVal) : Bool :=
  match value with
  | .vNA => false
  | .vNum q => q != 0
  | .vStr s =>
    let t := pyLower (pyStrip s)
    t == "1" || t == "yes" || t == "true" || t == "有" || t == "是" || t == "y"

/-- C4 counterexample: the input y is accepted as affirmative by the source
conversion but is outside the claim token list, so the claim predicts false. -/
theorem convert_boolean_field_y_cex :
    convert_boolean_field (.vStr "y") = true ∧
      boolSpecClaimed (.vStr "y") = false := by decide

/-- C4 amended: the boolean-field converter returns true exactly when the
input is a non-zero number or, case-insensitively after trimming, one of the
textual affirmative tokens 1, yes, true, 有, 是, y; every other input,
missing values included, yields false. -/
theorem convert_boolean_field_spec (v : PyVal) :
    convert_boolean_field v = boolSpecAmended v := by
  cases v with
  | vNA => rfl
  | vNum q => rfl
  | vStr s =>
    simp only [convert_boolean_field, boolSpecAmended, pdIsna]
    cases h1 : (pyLower (pyStrip s) == "1") <;>
      cases h2 : (pyLower (pyStrip s) == "是") <;>
      cases h3 : (pyLower (pyStrip s) == "true") <;>
      cases h4 : (pyLower (pyStrip s) == "yes") <;>
      cases h5 : (pyLower (pyStrip s) == "y") <;>
      cases h6 : (pyLower (pyStrip s) == "有") <;>
      simp [h1, h2, h3, h4, h5, h6]

theorem normalizeRow_fields {row : RawRow} {rec : PersonRec}
    (h : normalizeRow row = some rec) :
    rec.transaction_count = transactionCountField row.transaction_count ∧
      rec.amount = amountField row.amount := by
  unfold normalizeRow at h
  cases hid : row.id_number with
  | none => rw [hid] at h; exact absurd h (by simp)
  | some idv =>
    rw [hid] at h
    dsimp only at h
    by_cases hc : cellFilled idv = true
    · rw [if_pos hc] at h
      have := Option.some.inj h
      rw [← this]
      exact ⟨rfl, rfl⟩
    · rw [if_neg hc] at h
      exact absurd h (by simp)

/-- Concrete input row for the transaction-count claim: a valid identity and
a numeric transaction-count cell holding zero. -/
def rowC3 : RawRow :=
  { id_number := some (.vStr "ID9"), amount := none,
    transaction_count := some (.vNum 0) }

/-- C3 counterexample: the row is accepted by the normalizer, its
transaction-count cell parses as 0, and 0 is passed through, violating the
claimed invariant that the field is at least 1. -/
theorem transaction_count_cex :
    (normalizeRow rowC3).isSome = true ∧
      (normalizeRow rowC3).map PersonRec.transaction_count = some 0 ∧
      ¬ (1 : Int) ≤ 0 := by decide

/-- C3 amended: for every accepted row, transaction_count is 1 when the
column is missing, the cell is null or blank, or the cell fails to parse as a
number; when the cell parses, its value truncated toward zero is used
unchanged — including values below 1. -/
theorem transaction_count_spec :
    (∀ (row : RawRow) (rec : PersonRec), normalizeRow row = some rec →
      row.transaction_count = none → rec.transaction_count = 1) ∧
    (∀ (row : RawRow) (rec : PersonRec) (v : PyVal),
      normalizeRow row = some rec → row.transaction_count = some v →
      cellFilled v = false → rec.transaction_count = 1) ∧
    (∀ (row : RawRow) (rec : PersonRec) (v : PyVal),
      normalizeRow row = some rec → row.transaction_count = some v →
      pyFloatVal v = none → rec.transaction_count = 1) ∧
    (∀ (row : RawRow) (rec : PersonRec) (v : PyVal) (q : ℚ),
      normalizeRow row = some rec → row.transaction_count = some v →
      cellFilled v = true → pyFloatVal v = some q →
      rec.transaction_count = pyInt q) := by
  refine ⟨?_, ?_, ?_, ?_⟩
  · intro row rec hn ht
    rw [(normalizeRow_fields hn).1, ht]
    rfl
  · intro row rec v hn ht hc
    rw [(normalizeRow_fields hn).1, ht]
    simp [transactionCountField, hc]
  · intro row rec v hn ht hp
    rw [(normalizeRow_fields hn).1, ht]
    by_cases hc : cellFilled v = true
    · simp [transactionCountField, hc, hp]
    · simp [transactionCountField, hc]
  · intro row rec v q hn ht hc hp
    rw [(normalizeRow_fields hn).1, ht]
    simp [transactionCountField, hc, hp]

/-- C3 witness: the amended characterization evaluated at concrete rows — a
missing column defaults to 1 and the parsable cell 0 passes through as 0. -/
theorem transaction_count_spec_witness :
    (PersonRec.transaction_count ⟨0, 1⟩ = 1) ∧
      (PersonRec.transaction_count ⟨0, 0⟩ = pyInt 0) := by
  constructor
  · exact transaction_count_spec.1
      { id_number := some (.vStr "A1"), amount := none,
        transaction_count := none } ⟨0, 1⟩ rfl rfl
  · exact transaction_count_spec.2.2.2 rowC3 ⟨0, 0⟩ (.vNum 0) 0 rfl rfl rfl rfl

/-- C10: a record amount of zero or below — including the negative amounts
that the normalizer passes through uncorrected — earns an amount sub-score of
exactly 0, the guard short-circuiting the relative-difference formula. -/
theorem nonpositive_amount_zero_score :
    (∀ (p : Person) (target_time target_amount : ℚ) (target_location : String),
      p.amount ≤ 0 →
      (calculate_base_score p target_time target_amount
        target_location).amount_score = 0) ∧
    (∀ (row : RawRow) (rec : PersonRec) (q : ℚ),
      normalizeRow row = some rec → row.amount = some (.vNum q) →
      rec.amount = q) := by
  constructor
  · intro p target_time target_amount target_location h
    simp only [calculate_base_score]
    rw [if_neg (not_lt.mpr h)]
  · intro row rec q hn ha
    rw [(normalizeRow_fields hn).2, ha]
    rfl

/-- C10 witness: the claim evaluated at a record of amount -5, normalized
from a numeric cell of -5. -/
theorem nonpositive_amount_zero_score_witness :
    (calculate_base_score { amount := -5 } 0 100 "").amount_score = 0 ∧
      PersonRec.amount ⟨-5, 1⟩ = -5 := by
  constructor
  · exact nonpositive_amount_zero_score.1 { amount := -5 } 0 100 "" (by norm_num)
  · exact nonpositive_amount_zero_score.2
      { id_number := some (.vStr "B2"), amount := some (.vNum (-5)),
        transaction_count := none } ⟨-5, 1⟩ (-5) rfl rfl

/-- The stepped time sub-score exactly as the claim words it, as a function
of the absolute hour difference. -/
def timeScoreSpec (d : ℚ) : ℚ :=
  if d ≤ 1 then 40
  else if d ≤ 3 then 35
  else if d ≤ 6 then 30
  else if d ≤ 12 then 25
  else if d ≤ 24 then 20
  else if d ≤ 48 then 15
  else if d ≤ 72 then 10
  else 5

set_option maxHeartbeats 1600000 in
/-- C2: the time sub-score is the stepped function of the absolute hour
difference between clue time and withdraw time, an absent withdraw time
scores 0, and the step function is monotonically non-increasing. -/
theorem time_score_stepped :
    (∀ (p : Person) (target_time target_amount : ℚ) (target_location : String),
      p.withdraw_time = none →
      (calculate_base_score p target_time target_amount
        target_location).time_score = 0) ∧
    (∀ (p : Person) (target_time target_amount : ℚ) (target_location : String)
      (u : ℚ), p.withdraw_time = some u →
      (calculate_base_score p target_time target_amount
        target_location).time_score = timeScoreSpec (|target_time - u| / 3600)) ∧
    (∀ d₁ d₂ : ℚ, d₁ ≤ d₂ → timeScoreSpec d₂ ≤ timeScoreSpec d₁) := by
  refine ⟨?_, ?_, ?_⟩
  · intro p target_time target_amount target_location h
    simp only [calculate_base_score]
    rw [h]
  · intro p target_time target_amount target_location u h
    simp only [calculate_base_score, timeScoreSpec]
    rw [h]
  · intro d₁ d₂ h
    unfold timeScoreSpec
    split_ifs <;> linarith

/-- C2 witness: the step function evaluated through the scoring function at a
record with no withdraw time, at a record two hours from the clue, and the
monotone step applied to the pair of hour differences 2 and 73. -/
theorem time_score_stepped_witness :
    (calculate_base_score { } 0 100 "").time_score = 0 ∧
      (calculate_base_score { withdraw_time := some 0 } 7200 100 "").time_score =
        timeScoreSpec (|(7200 : ℚ) - 0| / 3600) ∧
      timeScoreSpec 73 ≤ timeScoreSpec 2 :=
  ⟨time_score_stepped.1 { } 0 100 "" rfl,
   time_score_stepped.2.1 { withdraw_time := some 0 } 7200 100 "" 0 rfl,
   time_score_stepped.2.2 2 73 (by norm_num)⟩

/-- The amount-bucket classification exactly as the claim words it. -/
def amountBucketSpec (a : ℚ) : String :=
  if a < 30000 then "low"
  else if a < 100000 then "medium"
  else "high"

/-- C1: the additional score uses exactly the weight table of the bucket
classified from the clue amount: low awards 15 for male and 20 for adult-app;
medium awards 5 for male, 5 for female, 10 for adult-app and 10 for
special-comm; high awards 15 for female, 20 for special-comm and 15 for
investment-app; history-warning adds 10 in low and high and 15 in medium. -/
theorem additional_score_weight_table (p : Person) (a : ℚ) :
    (calculate_additional_score p a).gender_score =
      (if amountBucketSpec a = "low" then
        (if p.gender = "male" then 15 else 0)
       else if amountBucketSpec a = "medium" then
        (if p.gender = "male" then 5 else if p.gender = "female" then 5 else 0)
       else (if p.gender = "female" then 15 else 0)) ∧
    (calculate_additional_score p a).app_score =
      (if amountBucketSpec a = "low" then
        (if p.has_adult_app then 20 else 0)
       else if amountBucketSpec a = "medium" then
        (if p.has_adult_app then 10 else 0) +
          (if p.has_special_comm then 10 else 0)
       else (if p.has_special_comm then 20 else 0) +
          (if p.has_investment_app then 15 else 0)) ∧
    (calculate_additional_score p a).history_warning_score =
      (if p.has_history_warning then
        (if amountBucketSpec a = "medium" then 15 else 10)
       else 0) := by
  by_cases h1 : a < 30000
  · simp [calculate_additional_score, get_amount_category, amountBucketSpec, h1]
  · by_cases h2 : a < 100000
    · simp [calculate_additional_score, get_amount_category, amountBucketSpec,
        h1, h2]
    · simp [calculate_additional_score, get_amount_category, amountBucketSpec,
        h1, h2]

/-- Warning table resolving neither the victim-ID nor the victim-phone
column. -/
def warnNoKeyTab : DFrame :=
  { cols := ["备注"], rows := [[some "x"]] }

/-- Withdrawal table resolving its ID column. -/
def withdrawIdTab : DFrame :=
  { cols := ["身份证号"], rows := [[some "A1"]] }

/-- C5 counterexample: the withdrawal table resolves its ID column, yet the
join raises fatally because the warning table resolves neither victim
column — the claim predicted a fatal error only when the withdrawal table
lacks both of its key columns. -/
theorem merge_fatal_warning_side_cex :
    (withdraw_id_col withdrawIdTab).isSome = true ∧
      merge_warning_count_to_withdraw_records warnNoKeyTab withdrawIdTab =
        Except.error "无法找到预警文件中的受害人身份证号或受害人号码列" :=
  ⟨rfl, rfl⟩

/-- Warning table with the victim columns present according to the two flags,
holding one benign row (a valid ID, a digit-led phone). -/
def mkWarningTab (hasVid hasVph : Bool) : DFrame :=
  { cols := (if hasVid then ["受害人身份证号"] else []) ++
      (if hasVph then ["受害人号码"] else []) ++ ["备注"],
    rows := [(if hasVid then [some "A1"] else []) ++
      (if hasVph then [some "12345"] else []) ++ [some "x"]] }

/-- Withdrawal table with the key columns present according to the two flags,
holding one benign row. -/
def mkWithdrawTab (hasWid hasWph : Bool) : DFrame :=
  { cols := (if hasWid then ["身份证号"] else []) ++
      (if hasWph then ["电话号码"] else []) ++ ["姓名"],
    rows := [(if hasWid then [some "A1"] else []) ++
      (if hasWph then [some "12345"] else []) ++ [some "张三"]] }

theorem idStage_error_msgs {warning withdraw : DFrame} {e : String}
    (h : idStage warning withdraw = .error e) :
    e = "KeyError: 身份证号" ∨ e = "KeyError: 预警次数" := by
  unfold idStage at h
  split at h
  · dsimp only at h
    split at h
    · exact Or.inl (Except.error.inj h).symm
    · split at h
      · exact Or.inr (Except.error.inj h).symm
      · exact absurd h (by simp)
  · exact absurd h (by simp)

theorem idStage_skip (warning withdraw : DFrame)
    (h : victim_id_col warning = none ∨ withdraw_id_col withdraw = none) :
    idStage warning withdraw =
      .ok (withdraw.rows.map fun _ => 0, withdraw.rows.map fun _ => "") := by
  unfold idStage
  rcases h with h | h
  · rw [h]
  · rw [h]
    cases victim_id_col warning <;> rfl

/-- Warning table whose victim-ID column resolves but holds no usable ID. -/
def warnBlankIdTab : DFrame :=
  { cols := ["受害人身份证号"], rows := [[none]] }

/-- Withdrawal table resolving its ID column, with one valid row. -/
def withdrawKeyedTab : DFrame :=
  { cols := ["身份证号"], rows := [[some "B7"]] }

/-- Warning table resolving its victim-ID column, with one valid row. -/
def warnKeyedTab : DFrame :=
  { cols := ["受害人身份证号"], rows := [[some "B7"]] }

/-- Withdrawal table resolving its ID column but already carrying a
预警次数 column, as an already-enriched export does. -/
def withdrawPreEnrichedTab : DFrame :=
  { cols := ["身份证号", "预警次数"], rows := [[some "B7", some "0"]] }

/-- C5 amended: the descriptive missing-key-column error is raised if and
only if the warning table resolves neither victim column or the withdrawal
table resolves neither key column (for all tables); a key column missing on
one side of the ID stage merely skips that stage, which then yields zero
counts without error; but completion is not guaranteed in every other
configuration — with key columns resolvable on both sides the ID stage still
raises a KeyError when the resolved victim-ID column holds no usable ID
(empty aggregation frame) or when the withdrawal table already carries a
预警次数 column (the pandas merge suffixes the collision). -/
theorem merge_fatal_key_columns :
    (∀ warning withdraw : DFrame,
      (merge_warning_count_to_withdraw_records warning withdraw =
          Except.error "无法找到预警文件中的受害人身份证号或受害人号码列" ∨
        merge_warning_count_to_withdraw_records warning withdraw =
          Except.error "无法找到取现记录文件中的身份证号或电话号码列") ↔
      (((victim_id_col warning).isNone &&
          (victim_phone_col warning).isNone) = true ∨
        ((withdraw_id_col withdraw).isNone &&
          (withdraw_phone_col withdraw).isNone) = true)) ∧
    (∀ warning withdraw : DFrame,
      victim_id_col warning = none ∨ withdraw_id_col withdraw = none →
      idStage warning withdraw =
        Except.ok (withdraw.rows.map fun _ => 0,
          withdraw.rows.map fun _ => "")) ∧
    ((victim_id_col warnBlankIdTab).isSome = true ∧
      (withdraw_id_col withdrawKeyedTab).isSome = true ∧
      merge_warning_count_to_withdraw_records warnBlankIdTab withdrawKeyedTab =
        Except.error "KeyError: 身份证号") ∧
    ((victim_id_col warnKeyedTab).isSome = true ∧
      (withdraw_id_col withdrawPreEnrichedTab).isSome = true ∧
      merge_warning_count_to_withdraw_records warnKeyedTab
          withdrawPreEnrichedTab = Except.error "KeyError: 预警次数") := by
  refine ⟨?_, idStage_skip, ⟨rfl, rfl, rfl⟩, ⟨rfl, rfl, rfl⟩⟩
  intro warning withdraw
  constructor
  · intro h
    by_cases hA : ((victim_id_col warning).isNone &&
        (victim_phone_col warning).isNone) = true
    · exact Or.inl hA
    · by_cases hB : ((withdraw_id_col withdraw).isNone &&
          (withdraw_phone_col withdraw).isNone) = true
      · exact Or.inr hB
      · exfalso
        unfold merge_warning_count_to_withdraw_records at h
        rw [if_neg hA, if_neg hB] at h
        cases hI : idStage warning withdraw with
        | error e =>
          rw [hI] at h
          dsimp only at h
          rcases idStage_error_msgs hI with hk | hk <;> subst hk <;>
            rcases h with h | h <;>
            exact absurd (Except.error.inj h) (by decide)
        | ok s1 =>
          rw [hI] at h
          dsimp only at h
          rcases h with h | h <;> exact absurd h (by simp)
  · intro h
    unfold merge_warning_count_to_withdraw_records
    rcases h with h | h
    · rw [if_pos h]
      exact Or.inl rfl
    · by_cases hA : ((victim_id_col warning).isNone &&
          (victim_phone_col warning).isNone) = true
      · rw [if_pos hA]
        exact Or.inl rfl
      · rw [if_neg hA, if_pos h]
        exact Or.inr rfl

/-- C5 witness: the characterization applied concretely — the ID stage of the
keyless warning table is skipped with zero counts, and the same pair of
tables realizes the forward direction of the fatal-error equivalence. -/
theorem merge_fatal_key_columns_witness :
    idStage warnNoKeyTab withdrawIdTab =
      Except.ok (withdrawIdTab.rows.map fun _ => 0,
        withdrawIdTab.rows.map fun _ => "") ∧
    (merge_warning_count_to_withdraw_records warnNoKeyTab withdrawIdTab =
        Except.error "无法找到预警文件中的受害人身份证号或受害人号码列" ∨
      merge_warning_count_to_withdraw_records warnNoKeyTab withdrawIdTab =
        Except.error "无法找到取现记录文件中的身份证号或电话号码列") :=
  ⟨merge_fatal_key_columns.2.1 warnNoKeyTab withdrawIdTab (Or.inl rfl),
    (merge_fatal_key_columns.1 warnNoKeyTab withdrawIdTab).mpr
      (Or.inl (by decide))⟩

theorem mem_bumpInfo {k key : String} {v : Nat × List String}
    {ft : Option String} :
    ∀ {l : List (String × Nat × List String)},
      (k, v) ∈ bumpInfo l key ft → k = key ∨ ∃ w, (k, w) ∈ l := by
  intro l
  induction l with
  | nil =>
    intro h
    simp only [bumpInfo, List.mem_singleton, Prod.mk.injEq] at h
    exact Or.inl h.1
  | cons hd rest ih =>
    intro h
    obtain ⟨k0, n, ts⟩ := hd
    simp only [bumpInfo] at h
    by_cases hk : (k0 == key) = true
    · rw [if_pos hk] at h
      rcases List.mem_cons.mp h with h1 | h2
      · exact Or.inl ((Prod.mk.injEq .. ▸ h1).1.trans (beq_iff_eq.mp hk))
      · exact Or.inr ⟨v, List.mem_cons_of_mem _ h2⟩
    · rw [if_neg hk] at h
      rcases List.mem_cons.mp h with h1 | h2
      · exact Or.inr ⟨v, h1 ▸ List.mem_cons_self _ _⟩
      · rcases ih h2 with h3 | ⟨w, hw⟩
        · exact Or.inl h3
        · exact Or.inr ⟨w, List.mem_cons_of_mem _ hw⟩

theorem phone_fold_inv (warning : DFrame) (vpcol : String) :
    ∀ (rows : List (List (Option String)))
      (acc : List (String × Nat × List String)),
      (∀ k v, (k, v) ∈ acc → firstIsDigit k = true) →
      ∀ k v, (k, v) ∈ rows.foldl
        (fun acc row =>
          let victim_phone := warnKey (cellAt warning vpcol row)
          if victim_phone != "" && victim_phone != "nan" &&
              firstIsDigit victim_phone then
            bumpInfo acc victim_phone
              (fraudTypeOf warning (fraud_type_col warning) row)
          else acc) acc →
      firstIsDigit k = true := by
  intro rows
  induction rows with
  | nil => intro acc hacc k v hm; exact hacc k v hm
  | cons r rs ih =>
    intro acc hacc k v hm
    rw [List.foldl_cons] at hm
    refine ih _ ?_ k v hm
    intro k1 v1 h1
    dsimp only at h1
    by_cases hcond : (warnKey (cellAt warning vpcol r) != "" &&
        warnKey (cellAt warning vpcol r) != "nan" &&
        firstIsDigit (warnKey (cellAt warning vpcol r))) = true
    · rw [if_pos hcond] at h1
      rcases mem_bumpInfo h1 with h2 | ⟨w, hw⟩
      · rw [h2]
        exact (Bool.and_eq_true _ _ |>.mp hcond).2
      · exact hacc k1 w hw
    · rw [if_neg hcond] at h1
      exact hacc k1 v1 h1

theorem zipmap_preserves_nonzero (f : List (Option String) × Nat → Nat)
    (hf : ∀ rc, rc.2 ≠ 0 → f rc = rc.2) :
    ∀ (rows : List (List (Option String))) (cs : List Nat) (i : Nat) (c : Nat),
      cs.length = rows.length → cs.get? i = some c → c ≠ 0 →
      ((rows.zip cs).map f).get? i = some c := by
  intro rows
  induction rows with
  | nil =>
    intro cs i c hlen hget _
    rw [List.length_nil, List.length_eq_zero] at hlen
    rw [hlen] at hget
    exact absurd hget (by simp)
  | cons r rs ih =>
    intro cs i c hlen hget hc
    cases cs with
    | nil => exact absurd hget (by simp)
    | cons c0 cs' =>
      cases i with
      | zero =>
        have : c0 = c := Option.some.inj hget
        subst this
        simp only [List.zip_cons_cons, List.map_cons, List.get?]
        rw [hf (r, c0) hc]
      | succ j =>
        simp only [List.zip_cons_cons, List.map_cons, List.get?]
        exact ih cs' j c (Nat.succ.inj (by simpa using hlen)) hget hc

/-- C6: the phone stage leaves every record with a non-zero count after the
ID stage untouched — a record matched by ID is never re-evaluated against the
phone mapping — and every key of the phone mapping begins with a digit. -/
theorem phone_stage_only_unmatched :
    (∀ (warning withdraw : DFrame) (s1 : List Nat × List String)
      (i : Nat) (c : Nat),
      s1.1.length = withdraw.rows.length →
      s1.1.get? i = some c → c ≠ 0 →
      (phoneStage warning withdraw s1).1.get? i = some c) ∧
    (∀ (warning : DFrame) (vpcol : String) (k : String) (v : Nat × List String),
      (k, v) ∈ buildPhoneInfo warning vpcol → firstIsDigit k = true) := by
  constructor
  · intro warning withdraw s1 i c hlen hget hc
    unfold phoneStage
    cases hv : victim_phone_col warning with
    | none => exact hget
    | some vpcol =>
      cases hw : withdraw_phone_col withdraw with
      | none => exact hget
      | some wpcol =>
        exact zipmap_preserves_nonzero _ (fun rc h => by simp [h])
          withdraw.rows s1.1 i c hlen hget hc
  · intro warning vpcol k v hm
    unfold buildPhoneInfo at hm
    exact phone_fold_inv warning vpcol warning.rows [] (by simp) k v hm

/-- C6 witness: a record with stage-1 count 2 keeps its count through the
phone stage of concrete tables, and the key 12345 of a concretely built phone
mapping begins with a digit. -/
theorem phone_stage_only_unmatched_witness :
    (phoneStage (mkWarningTab false true) (mkWithdrawTab false true)
        ([2], [""])).1.get? 0 = some 2 ∧
      firstIsDigit "12345" = true :=
  ⟨phone_stage_only_unmatched.1 (mkWarningTab false true)
      (mkWithdrawTab false true) ([2], [""]) 0 2 rfl rfl (by decide),
    phone_stage_only_unmatched.2 (mkWarningTab false true) "受害人号码"
      "12345" (1, []) (by decide)⟩

/-- The warning table of the re-enrichment scenario: one victim ID. -/
def warnRerunTab : DFrame :=
  { cols := ["受害人身份证号"], rows := [[some "A1"]] }

/-- The withdrawal table of the re-enrichment scenario before enrichment. -/
def withdrawRerunTab : DFrame :=
  { cols := ["身份证号"], rows := [[some "A1"]] }

/-- The enriched output the first merge produces for the scenario. -/
def withdrawRerunEnriched : DFrame :=
  { cols := ["身份证号", "预警次数", "疑似诈骗类型"],
    rows := [[some "A1", some "1", some ""]] }

/-- C7: the first merge succeeds and appends the enrichment columns, but
running the merge again over its own output raises a KeyError — the input now
carries a 预警次数 column, the pandas merge suffixes the collision, and the
unsuffixed lookup fails — instead of reproducing the same counts. -/
theorem merge_rerun_raises :
    merge_warning_frame warnRerunTab withdrawRerunTab =
        Except.ok withdrawRerunEnriched ∧
      merge_warning_count_to_withdraw_records warnRerunTab
          withdrawRerunEnriched = Except.error "KeyError: 预警次数" :=
  ⟨rfl, rfl⟩
